import Mathlib

/-
  Verification development for the CookAway session orchestration engine,
  a shallow embedding of the VoiceInteraction component: the conversation
  controller, the capture/playback lifecycle, the countdown timer with
  parallel tasks, the step-progress bookkeeping and the message log.

  The embedding follows the cooperative, single-threaded event model of the
  design: every mutation is the reaction to one event (a speech-recognition
  result, a recognition error or end, an audio-ended event, a one-second
  timer tick, or the resolution of a network request), and each handler is
  translated as a function on one authoritative state record. Side effects
  that do not feed back into the state (audio cues, toast notifications,
  attempts to start the speech recognizer) are recorded as event counters
  so that properties such as "fires exactly once" can be stated.
-/

namespace CookAway

/-- The five conversation states of the dialogue controller. -/
inductive ConvPhase
  | initial_summary
  | asking_servings
  | asking_substitution
  | ready_to_cook
  | cooking
deriving DecidableEq, Repr

/-- Sender of a chat message (the source stores this in the field named type). -/
inductive Sender
  | user
  | assistant
deriving DecidableEq, Repr

/-- Per-step progress status, as stored in the stepStatuses record. -/
inductive StepStatus
  | not_started
  | in_progress
  | completed
deriving DecidableEq, Repr

/-- Rank of a status in the order not_started < in_progress < completed. -/
def StepStatus.rank : StepStatus → Nat
  | .not_started => 0
  | .in_progress => 1
  | .completed => 2

/-- One entry of the parallel_tasks list carried by timer data. -/
structure ParallelTask where
  step_number : Nat
  instruction : String
  estimated_time : Int
deriving DecidableEq, Repr

/-- Timer payload decoded from the x-timer-data response header, after the
numeric fields went through parseInt. The step_statuses field is the optional
explicit status map; it is modelled as an association list because a
JavaScript object spread takes the entry of the later object per key. -/
structure TimerData where
  duration : Int
  kind : String
  step : Int
  warning_time : Int
  parallel_tasks : Option (List ParallelTask)
  step_statuses : Option (List (Int × StepStatus))
deriving DecidableEq, Repr

/-- A chat message as appended by addMessage (id and timestamp omitted:
no property stated here ever inspects them). -/
structure Message where
  sender : Sender
  content : String
  state : Option ConvPhase
  timer : Option TimerData
deriving DecidableEq, Repr

/-- The authoritative component state: the useState hooks of the
VoiceInteraction component, together with event counters for the side
effects (warning cue, completion cue, error toast, attempts to start the
speech recognizer) and a count of unresolved network requests. -/
structure ConvState where
  isListening : Bool
  isPlaying : Bool
  hasRecognition : Bool
  hasAudio : Bool
  currentState : ConvPhase
  currentRecipeId : String
  messages : List Message
  timeRemaining : Option Int
  activeParallelSteps : List Nat
  stepStatuses : Int → StepStatus
  pendingRequests : Nat
  startListeningCalls : Nat
  warningsFired : Nat
  completionsFired : Nat
  errorToasts : Nat

/-- JavaScript truthiness of the timeRemaining value: null and 0 are falsy. -/
def truthyTime : Option Int → Bool
  | none => false
  | some t => t != 0

/-- startListening: starts the recognizer only when one exists and neither
capture nor playback is active. The call counter is bumped on every
invocation, whether or not capture actually starts. -/
def startListening (s : ConvState) : ConvState :=
  let s0 := { s with startListeningCalls := s.startListeningCalls + 1 }
  if s0.hasRecognition && !s0.isListening && !s0.isPlaying then
    { s0 with isListening := true }
  else
    s0

/-- stopListening: stops the recognizer when one exists and capture is active. -/
def stopListening (s : ConvState) : ConvState :=
  if s.hasRecognition && s.isListening then
    { s with isListening := false }
  else
    s

/-- playAudioResponse: if the audio element exists, stop any active capture
first, then begin playback and mark playback active. -/
def playAudioResponse (s : ConvState) : ConvState :=
  if s.hasAudio then
    let s1 := if s.isListening then stopListening s else s
    { s1 with isPlaying := true }
  else
    s

/-- The startListening closure created by the first render, which is the one
the mount-effect handlers (the speech-recognition onerror handler and the
audio ended handler) invoke: recognitionRef is a live ref, but the
isListening and isPlaying bindings the closure reads are the first-render
values false and false, so the guard always passes and capture starts
whenever a recognizer exists. (When the engine is already capturing,
recognition.start() throws, the catch swallows it and the flag, already
true, is unchanged — extensionally the same state.) -/
def startListeningStale (s : ConvState) : ConvState :=
  let s0 := { s with startListeningCalls := s.startListeningCalls + 1 }
  if s0.hasRecognition then
    { s0 with isListening := true }
  else
    s0

/-- The speech-recognition onerror handler: capture is marked inactive; a
no-speech error silently restarts capture, any other error surfaces a toast
and leaves capture idle. The handler is installed once by the mount effect,
so the restart goes through the first-render startListening closure with its
stale guard. -/
def recognitionErrorHandler (noSpeech : Bool) (s : ConvState) : ConvState :=
  let s1 := { s with isListening := false }
  if noSpeech then
    startListeningStale s1
  else
    { s1 with errorToasts := s1.errorToasts + 1 }

/-- The speech-recognition onend handler: capture is marked inactive. -/
def recognitionEndHandler (s : ConvState) : ConvState :=
  { s with isListening := false }

/-- The timeRemaining binding read by the audio ended listener. The listener
is created inside the mount effect (empty dependency array), so it closes
over the first-render value of timeRemaining forever: null. -/
def capturedTimeRemaining : Option Int := none

/-- The audio ended handler: playback is marked inactive, and capture is
restarted unless the conversation is in initial_summary (read through the
live currentStateRef) or the captured timeRemaining is truthy — the latter
test is written in the source but is vacuous, because the listener closes
over the initial null, not the live countdown value. The restart goes
through the first-render startListening closure with its stale guard. -/
def handleAudioEnd (s : ConvState) : ConvState :=
  let s1 := { s with isPlaying := false }
  if s.currentState ≠ ConvPhase.initial_summary ∧ truthyTime capturedTimeRemaining = false then
    startListeningStale s1
  else
    s1

/-- One tick of the running countdown: decrement the remaining time; when
the new value is exactly 20 fire the warning cue and toast; when the new
value is at most 0 fire the completion cue and toast, clear the remaining
time and call startListening. A tick with no countdown running is a no-op. -/
def timerTick (s : ConvState) : ConvState :=
  match s.timeRemaining with
  | none => s
  | some prev =>
    let newTime := prev - 1
    let s1 := if newTime = 20 then { s with warningsFired := s.warningsFired + 1 } else s
    if newTime ≤ 0 then
      startListening { s1 with timeRemaining := none,
                               completionsFired := s1.completionsFired + 1 }
    else
      { s1 with timeRemaining := some newTime }

/-- The effect reacting to messages and timeRemaining: when the last message
carries timer data with a parallel_tasks list (any list, even empty, is a
truthy JavaScript value), the active parallel steps become the step numbers
of that list; otherwise they are cleared when no countdown is running. An
empty log leaves the set untouched. -/
def updateParallelSteps (s : ConvState) : ConvState :=
  match s.messages.getLast? with
  | none => s
  | some lastMessage =>
    match lastMessage.timer.bind (fun t => t.parallel_tasks) with
    | some tasks =>
      { s with activeParallelSteps := tasks.map (fun t => t.step_number) }
    | none =>
      if truthyTime s.timeRemaining = false then
        { s with activeParallelSteps := [] }
      else
        s

/-- The effect reacting to messages: when the last message carries timer
data, merge the previous statuses with the explicit step_statuses map (the
explicit entry wins per key) and force the timer step to in_progress. -/
def stepStatusesEffect (s : ConvState) : ConvState :=
  match s.messages.getLast? with
  | none => s
  | some lastMessage =>
    match lastMessage.timer with
    | none => s
    | some timer =>
      match timer.step_statuses with
      | some explicit =>
        { s with stepStatuses := fun n =>
            if n = timer.step then StepStatus.in_progress
            else
              match explicit.lookup n with
              | some st => st
              | none => s.stepStatuses n }
      | none =>
        { s with stepStatuses := fun n =>
            if n = timer.step then StepStatus.in_progress
            else s.stepStatuses n }

/-- addMessage: append one message at the end of the log. -/
def addMessage (s : ConvState) (m : Message) : ConvState :=
  { s with messages := s.messages ++ [m] }

/-- The message appended for a user turn. -/
def userMessage (t : String) : Message :=
  { sender := Sender.user, content := t, state := none, timer := none }

/-- The synchronous first half of handleVoiceInput, up to issuing the
network request: the user message is appended, playback is marked active and
one more request becomes outstanding. No check of any kind guards this path. -/
def handleVoiceInputStart (s : ConvState) (transcript : String) : ConvState :=
  let s1 := addMessage s (userMessage transcript)
  { s1 with isPlaying := true, pendingRequests := s1.pendingRequests + 1 }

/-- The synchronous first half of handleTextSubmit: identical to the voice
path except that input that is empty after trimming is dropped before
anything happens. -/
def handleTextSubmitStart (s : ConvState) (textInput : String) : ConvState :=
  if textInput.trim = "" then
    s
  else
    let s1 := addMessage s (userMessage textInput)
    { s1 with isPlaying := true, pendingRequests := s1.pendingRequests + 1 }

/-- A whole handleVoiceInput turn whose network request fails: the user
message was already appended, the catch handler surfaces an error toast and
marks playback inactive; nothing else is touched. -/
def handleVoiceInputFail (s : ConvState) (transcript : String) : ConvState :=
  let s1 := handleVoiceInputStart s transcript
  { s1 with isPlaying := false,
            pendingRequests := s1.pendingRequests - 1,
            errorToasts := s1.errorToasts + 1 }

/-- Outcome of reading the x-timer-data response header: the header may be
absent, present but unparsable (the base64 decode or the JSON parse throws),
or parsed into timer data. -/
inductive TimerHeader
  | absent
  | malformed
  | parsed (data : TimerData)
deriving DecidableEq, Repr

/-- The metadata of one dialogue-collaborator response, as read from the
response headers after text decoding. -/
structure CollabResponse where
  nextState : Option ConvPhase
  updatedRecipeId : Option String
  responseText : Option String
  timerHeader : TimerHeader
deriving DecidableEq, Repr

/-- The timer-data block of the response handler: an absent header does
nothing; a malformed header is swallowed by the catch (log only) and the
optional field is dropped; parsed data with positive duration starts the
countdown, otherwise the remaining time is set to null, cancelling any
running countdown. Returns the timer attached to the assistant message. -/
def processTimerHeader (s : ConvState) : TimerHeader → ConvState × Option TimerData
  | TimerHeader.absent => (s, none)
  | TimerHeader.malformed => (s, none)
  | TimerHeader.parsed data =>
    if 0 < data.duration then
      ({ s with timeRemaining := some data.duration }, some data)
    else
      ({ s with timeRemaining := none }, some data)

/-- The response-processing suffix of handleVoiceInput and handleTextSubmit:
switch the recipe reference when an updated id is present, handle the timer
header, append the assistant message when response text is present, apply
the state transition when the next state differs, then play the audio. -/
def applyResponse (s : ConvState) (r : CollabResponse) : ConvState :=
  let s1 :=
    match r.updatedRecipeId with
    | some rid => { s with currentRecipeId := rid }
    | none => s
  let p := processTimerHeader s1 r.timerHeader
  let s3 :=
    match r.responseText with
    | some txt =>
      addMessage p.1 { sender := Sender.assistant, content := txt,
                       state := r.nextState, timer := p.2 }
    | none => p.1
  let s4 :=
    match r.nextState with
    | some ns => if ns ≠ s3.currentState then { s3 with currentState := ns } else s3
    | none => s3
  playAudioResponse s4

/-- A whole handleVoiceInput turn whose request resolves with a response. -/
def handleVoiceInputSuccess (s : ConvState) (transcript : String)
    (r : CollabResponse) : ConvState :=
  let s1 := handleVoiceInputStart s transcript
  applyResponse { s1 with pendingRequests := s1.pendingRequests - 1 } r

/-- The timer tick followed by the reactive effect on the parallel-step
set (the effect re-runs because timeRemaining changed). -/
def timerTickWithEffects (s : ConvState) : ConvState :=
  updateParallelSteps (timerTick s)

/-- Iterate the timer tick a given number of times. -/
def runTicks : Nat → ConvState → ConvState
  | 0, s => s
  | Nat.succ n, s => runTicks n (timerTick s)

/-- The capture and playback operations named by the device-exclusion
invariant. -/
inductive DeviceOp
  | startL
  | stopL
  | play
  | recogError (noSpeech : Bool)
  | recogEnd
  | audioEnd
deriving DecidableEq, Repr

/-- Interpretation of one device operation. -/
def applyDeviceOp (op : DeviceOp) (s : ConvState) : ConvState :=
  match op with
  | DeviceOp.startL => startListening s
  | DeviceOp.stopL => stopListening s
  | DeviceOp.play => playAudioResponse s
  | DeviceOp.recogError b => recognitionErrorHandler b s
  | DeviceOp.recogEnd => recognitionEndHandler s
  | DeviceOp.audioEnd => handleAudioEnd s

/-- Run a sequence of device operations from a state. -/
def runDeviceOps (ops : List DeviceOp) (s : ConvState) : ConvState :=
  ops.foldl (fun s op => applyDeviceOp op s) s

/-- Every state-mutating event of the component. -/
inductive SysOp
  | device (op : DeviceOp)
  | tick
  | tickWithEffects
  | voiceStart (t : String)
  | voiceFail (t : String)
  | voiceSuccess (t : String) (r : CollabResponse)
  | textStart (t : String)
  | parallelEffect
  | statusEffect

/-- Interpretation of one event. -/
def applySysOp (op : SysOp) (s : ConvState) : ConvState :=
  match op with
  | SysOp.device d => applyDeviceOp d s
  | SysOp.tick => timerTick s
  | SysOp.tickWithEffects => timerTickWithEffects s
  | SysOp.voiceStart t => handleVoiceInputStart s t
  | SysOp.voiceFail t => handleVoiceInputFail s t
  | SysOp.voiceSuccess t r => handleVoiceInputSuccess s t r
  | SysOp.textStart t => handleTextSubmitStart s t
  | SysOp.parallelEffect => updateParallelSteps s
  | SysOp.statusEffect => stepStatusesEffect s

/-- The device is not contended: capture and playback are not active at the
same time. -/
def mutexOK (s : ConvState) : Prop :=
  s.isListening = false ∨ s.isPlaying = false

/-- Invariant carried through every device operation: the device is not
contended, and capture can only be active when a recognizer exists (the
mount effect is the only place the recognizer is created, and startListening
is the only place capture becomes active). -/
def DeviceInv (s : ConvState) : Prop :=
  mutexOK s ∧ (s.isListening = true → s.hasRecognition = true)

/-- The component state right after mount: recognizer and audio element
exist, nothing is active, the log is empty and no request is outstanding. -/
def initState : ConvState :=
  { isListening := false
    isPlaying := false
    hasRecognition := true
    hasAudio := true
    currentState := ConvPhase.initial_summary
    currentRecipeId := "recipe-1"
    messages := []
    timeRemaining := none
    activeParallelSteps := []
    stepStatuses := fun _ => StepStatus.not_started
    pendingRequests := 0
    startListeningCalls := 0
    warningsFired := 0
    completionsFired := 0
    errorToasts := 0 }

/-! Projection lemmas: which fields each operation leaves untouched. -/

theorem startListening_messages (s : ConvState) :
    (startListening s).messages = s.messages := by
  simp only [startListening]; split <;> rfl

theorem startListening_timeRemaining (s : ConvState) :
    (startListening s).timeRemaining = s.timeRemaining := by
  simp only [startListening]; split <;> rfl

theorem startListening_warningsFired (s : ConvState) :
    (startListening s).warningsFired = s.warningsFired := by
  simp only [startListening]; split <;> rfl

theorem startListening_completionsFired (s : ConvState) :
    (startListening s).completionsFired = s.completionsFired := by
  simp only [startListening]; split <;> rfl

theorem startListening_calls (s : ConvState) :
    (startListening s).startListeningCalls = s.startListeningCalls + 1 := by
  simp only [startListening]; split <;> rfl

theorem startListening_isPlaying (s : ConvState) :
    (startListening s).isPlaying = s.isPlaying := by
  simp only [startListening]; split <;> rfl

theorem startListening_activeParallelSteps (s : ConvState) :
    (startListening s).activeParallelSteps = s.activeParallelSteps := by
  simp only [startListening]; split <;> rfl

theorem startListening_currentState (s : ConvState) :
    (startListening s).currentState = s.currentState := by
  simp only [startListening]; split <;> rfl

theorem startListeningStale_messages (s : ConvState) :
    (startListeningStale s).messages = s.messages := by
  simp only [startListeningStale]; split <;> rfl

theorem startListeningStale_isPlaying (s : ConvState) :
    (startListeningStale s).isPlaying = s.isPlaying := by
  simp only [startListeningStale]; split <;> rfl

theorem startListeningStale_timeRemaining (s : ConvState) :
    (startListeningStale s).timeRemaining = s.timeRemaining := by
  simp only [startListeningStale]; split <;> rfl

theorem startListeningStale_warningsFired (s : ConvState) :
    (startListeningStale s).warningsFired = s.warningsFired := by
  simp only [startListeningStale]; split <;> rfl

theorem startListeningStale_completionsFired (s : ConvState) :
    (startListeningStale s).completionsFired = s.completionsFired := by
  simp only [startListeningStale]; split <;> rfl

theorem startListeningStale_calls (s : ConvState) :
    (startListeningStale s).startListeningCalls = s.startListeningCalls + 1 := by
  simp only [startListeningStale]; split <;> rfl

theorem stopListening_messages (s : ConvState) :
    (stopListening s).messages = s.messages := by
  simp only [stopListening]; split <;> rfl

theorem playAudioResponse_messages (s : ConvState) :
    (playAudioResponse s).messages = s.messages := by
  simp only [playAudioResponse]
  split
  · split <;> simp [stopListening_messages]
  · rfl

theorem playAudioResponse_timeRemaining (s : ConvState) :
    (playAudioResponse s).timeRemaining = s.timeRemaining := by
  simp only [playAudioResponse, stopListening]
  split
  · split
    · split <;> rfl
    · rfl
  · rfl

theorem playAudioResponse_warningsFired (s : ConvState) :
    (playAudioResponse s).warningsFired = s.warningsFired := by
  simp only [playAudioResponse, stopListening]
  split
  · split
    · split <;> rfl
    · rfl
  · rfl

theorem playAudioResponse_completionsFired (s : ConvState) :
    (playAudioResponse s).completionsFired = s.completionsFired := by
  simp only [playAudioResponse, stopListening]
  split
  · split
    · split <;> rfl
    · rfl
  · rfl

theorem timerTick_messages (s : ConvState) :
    (timerTick s).messages = s.messages := by
  simp only [timerTick]
  split
  · rfl
  · split <;> [skip; skip] <;> split <;> simp [startListening_messages]

theorem updateParallelSteps_messages (s : ConvState) :
    (updateParallelSteps s).messages = s.messages := by
  simp only [updateParallelSteps]
  split
  · rfl
  · split
    · rfl
    · split <;> rfl

theorem stepStatusesEffect_messages (s : ConvState) :
    (stepStatusesEffect s).messages = s.messages := by
  simp only [stepStatusesEffect]
  split
  · rfl
  · split
    · rfl
    · split <;> rfl

/-! Preservation of the device invariant by each device operation. -/

theorem startListening_inv (s : ConvState) (h : DeviceInv s) :
    DeviceInv (startListening s) := by
  obtain ⟨hm, hr⟩ := h
  unfold DeviceInv mutexOK at *
  simp only [startListening]
  split_ifs <;> simp_all

theorem stopListening_inv (s : ConvState) (h : DeviceInv s) :
    DeviceInv (stopListening s) := by
  obtain ⟨hm, hr⟩ := h
  unfold DeviceInv mutexOK at *
  simp only [stopListening]
  split_ifs <;> simp_all

theorem playAudioResponse_inv (s : ConvState) (h : DeviceInv s) :
    DeviceInv (playAudioResponse s) := by
  obtain ⟨hm, hr⟩ := h
  unfold DeviceInv mutexOK at *
  simp only [playAudioResponse, stopListening]
  split_ifs <;> simp_all

/-- The stale-guarded restart preserves the device invariant exactly when
playback is inactive at the moment it runs: it sets isListening without ever
consulting the live isPlaying. -/
theorem startListeningStale_inv (s : ConvState) (hp : s.isPlaying = false)
    (hr : s.isListening = true → s.hasRecognition = true) :
    DeviceInv (startListeningStale s) := by
  unfold DeviceInv mutexOK
  simp only [startListeningStale]
  split_ifs <;> simp_all

theorem recognitionErrorHandler_inv (b : Bool) (s : ConvState) (_h : DeviceInv s)
    (hp : b = true → s.isPlaying = false) :
    DeviceInv (recognitionErrorHandler b s) := by
  unfold recognitionErrorHandler
  split
  case isTrue hb => exact startListeningStale_inv _ (hp hb) (by simp)
  case isFalse => exact ⟨Or.inl rfl, by simp⟩

theorem recognitionEndHandler_inv (s : ConvState) (_h : DeviceInv s) :
    DeviceInv (recognitionEndHandler s) :=
  ⟨Or.inl rfl, by simp [recognitionEndHandler]⟩

theorem handleAudioEnd_inv (s : ConvState) (h : DeviceInv s) :
    DeviceInv (handleAudioEnd s) := by
  obtain ⟨hm, hr⟩ := h
  unfold handleAudioEnd
  split
  · exact startListeningStale_inv _ rfl (fun hx => hr hx)
  · exact ⟨Or.inr rfl, fun hx => hr hx⟩

/-- Every device operation preserves the invariant, except that the no-speech
error restart needs playback to be inactive when it fires. -/
theorem applyDeviceOp_inv (op : DeviceOp) (s : ConvState) (h : DeviceInv s)
    (hsafe : op = DeviceOp.recogError true → s.isPlaying = false) :
    DeviceInv (applyDeviceOp op s) := by
  cases op with
  | startL => exact startListening_inv s h
  | stopL => exact stopListening_inv s h
  | play => exact playAudioResponse_inv s h
  | recogError b =>
    refine recognitionErrorHandler_inv b s h (fun hb => ?_)
    exact hsafe (by rw [hb])
  | recogEnd => exact recognitionEndHandler_inv s h
  | audioEnd => exact handleAudioEnd_inv s h

/-- A trace of device operations is safe when every no-speech error event in
it fires while playback is inactive. -/
def safeTrace : List DeviceOp → ConvState → Bool
  | [], _ => true
  | op :: rest, s =>
    (if op = DeviceOp.recogError true then !s.isPlaying else true) &&
      safeTrace rest (applyDeviceOp op s)

theorem runDeviceOps_inv (ops : List DeviceOp) (s : ConvState) (h : DeviceInv s)
    (hsafe : safeTrace ops s = true) : DeviceInv (runDeviceOps ops s) := by
  induction ops generalizing s with
  | nil => exact h
  | cons op rest ih =>
    simp only [safeTrace, Bool.and_eq_true] at hsafe
    refine ih (applyDeviceOp op s) (applyDeviceOp_inv op s h ?_) hsafe.2
    intro hop
    have := hsafe.1
    rw [if_pos hop] at this
    simpa using this

/-- C1, counterexample: the mutual-exclusion invariant is violated by the
program. A no-speech recognition error arriving while playback is active
restarts capture through the first-render startListening closure, whose
captured guard flags are the initial false/false, so isListening becomes
true while isPlaying is still true. -/
theorem mutex_violated_by_no_speech_during_playback :
    (runDeviceOps [DeviceOp.startL, DeviceOp.play, DeviceOp.recogError true]
        initState).isListening = true ∧
    (runDeviceOps [DeviceOp.startL, DeviceOp.play, DeviceOp.recogError true]
        initState).isPlaying = true ∧
    ¬ mutexOK (runDeviceOps [DeviceOp.startL, DeviceOp.play, DeviceOp.recogError true]
        initState) := by
  refine ⟨rfl, rfl, ?_⟩
  intro h
  rcases h with h | h <;> exact absurd h (by decide)

/-- C1, amended: device mutual exclusion holds for every sequence of the
listed capture and playback operations in which no no-speech recognition
error fires while playback is active; the isListening and isPlaying flags
are then never simultaneously true. (The excluded event breaks the invariant
because the onerror closure restarts capture through the first-render
startListening whose stale guard ignores the live flags.) -/
theorem device_mutual_exclusion_without_stale_restart (ops : List DeviceOp)
    (s : ConvState) (h : DeviceInv s) (hsafe : safeTrace ops s = true) :
    mutexOK (runDeviceOps ops s) :=
  (runDeviceOps_inv ops s h hsafe).1

/-- Witness for the amended C1 at a concrete operation sequence (including a
no-speech error fired while playback is inactive) from the mount state. -/
theorem device_mutual_exclusion_without_stale_restart_witness :
    mutexOK (runDeviceOps
      [DeviceOp.play, DeviceOp.audioEnd, DeviceOp.startL, DeviceOp.recogEnd,
       DeviceOp.recogError true]
      initState) :=
  device_mutual_exclusion_without_stale_restart _ initState
    ⟨Or.inl rfl, fun _ => rfl⟩ (by decide)

/-! Claim C2: in-flight submits. -/

/-- A state in the middle of a turn: one network request is unresolved. -/
def inFlightState : ConvState :=
  { initState with currentState := ConvPhase.cooking, pendingRequests := 1 }

/-- C2, counterexample: a submit made while a prior request is unresolved is
not rejected; the user message is appended (the log changes) and a second
request becomes outstanding, so two requests are outstanding at once. -/
theorem submit_in_flight_not_rejected :
    inFlightState.pendingRequests = 1 ∧
    (handleVoiceInputStart inFlightState "next").messages ≠ inFlightState.messages ∧
    (handleVoiceInputStart inFlightState "next").pendingRequests = 2 := by
  decide

/-- C2, amended: neither submit path carries an in-flight guard. Every call
to handleVoiceInput appends the user message, marks playback active and
issues one more request, whatever the number of unresolved requests; no
rejection of any kind exists, so several requests can be outstanding. -/
theorem submit_never_rejected (s : ConvState) (t : String) :
    (handleVoiceInputStart s t).messages = s.messages ++ [userMessage t] ∧
    (handleVoiceInputStart s t).pendingRequests = s.pendingRequests + 1 ∧
    (handleVoiceInputStart s t).currentState = s.currentState ∧
    (handleVoiceInputStart s t).isPlaying = true := by
  refine ⟨rfl, rfl, rfl, rfl⟩

/-! Claim C3: atomicity on request failure. -/

/-- A state in which step 2 is already completed and the last message is an
assistant message carrying a timer snapshot for step 2. -/
def completedStepState : ConvState :=
  { initState with
    currentState := ConvPhase.cooking
    stepStatuses := fun n => if n = 2 then StepStatus.completed else StepStatus.not_started
    messages :=
      [ { sender := Sender.assistant
          content := "Timer started for step 2"
          state := some ConvPhase.cooking
          timer := some { duration := 60, kind := "countdown", step := 2,
                          warning_time := 20, parallel_tasks := none,
                          step_statuses := none } } ] }

/-- C4, counterexample: processing a timer snapshot for a step that is
already completed regresses its status from completed to in_progress, so the
observed status sequence for that step decreases. -/
theorem timer_snapshot_regresses_completed_step :
    completedStepState.stepStatuses 2 = StepStatus.completed ∧
    (stepStatusesEffect completedStepState).stepStatuses 2 = StepStatus.in_progress ∧
    StepStatus.rank StepStatus.in_progress < StepStatus.rank StepStatus.completed := by
  decide

/-- C4, amended: processing a timer snapshot with step N unconditionally
forces the status of N to in_progress, whatever its previous value; the
status of a step is therefore not monotone, since a completed step is
regressed to in_progress by the next snapshot that names it. -/
theorem timer_snapshot_forces_in_progress (s : ConvState) (m : Message)
    (td : TimerData) (hlast : s.messages.getLast? = some m)
    (htimer : m.timer = some td) :
    (stepStatusesEffect s).stepStatuses td.step = StepStatus.in_progress := by
  unfold stepStatusesEffect
  simp only [hlast, htimer]
  cases td.step_statuses <;> simp

/-- Witness for the amended C4 at the concrete regression state. -/
theorem timer_snapshot_forces_in_progress_witness :
    (stepStatusesEffect completedStepState).stepStatuses 2 = StepStatus.in_progress :=
  timer_snapshot_forces_in_progress completedStepState _ _ rfl rfl

/-! Countdown lemmas: the behaviour of iterated timer ticks. -/

theorem runTicks_succ_comm (k : Nat) :
    ∀ s : ConvState, runTicks (k + 1) s = timerTick (runTicks k s) := by
  induction k with
  | zero => intro s; rfl
  | succ k ih =>
    intro s
    show runTicks (k + 1) (timerTick s) = timerTick (runTicks (k + 1) s)
    rw [ih]
    rfl

theorem runTicks_add (a b : Nat) :
    ∀ s : ConvState, runTicks (a + b) s = runTicks b (runTicks a s) := by
  induction a with
  | zero => intro s; simp [runTicks]
  | succ a ih =>
    intro s
    have hup : a + 1 + b = (a + b) + 1 := by omega
    rw [hup]
    show runTicks (a + b) (timerTick s) = runTicks b (runTicks (a + 1) s)
    rw [ih]
    rfl

/-- A tick that fires neither the warning nor the completion effect only
decrements the remaining time. -/
theorem timerTick_plain (s : ConvState) (t : Int) (hrem : s.timeRemaining = some t)
    (h20 : ¬ t - 1 = 20) (h0 : ¬ t - 1 ≤ 0) :
    timerTick s = { s with timeRemaining := some (t - 1) } := by
  simp only [timerTick, hrem, if_neg h20, if_neg h0]

/-- The tick taken from remaining time 21 fires the warning effect and moves
the remaining time to 20. -/
theorem timerTick_at_21 (s : ConvState) (hrem : s.timeRemaining = some 21) :
    timerTick s = { s with timeRemaining := some 20,
                           warningsFired := s.warningsFired + 1 } := by
  simp only [timerTick, hrem]
  norm_num

/-- A tick that reaches 0 or below fires the completion effect, clears the
remaining time and calls startListening. -/
theorem timerTick_complete (s : ConvState) (t : Int) (hrem : s.timeRemaining = some t)
    (h20 : ¬ t - 1 = 20) (h0 : t - 1 ≤ 0) :
    timerTick s = startListening
      { s with timeRemaining := none,
               completionsFired := s.completionsFired + 1 } := by
  simp only [timerTick, hrem, if_neg h20, if_pos h0]

/-- Ticking down from any remaining time of 21 + k to 21 fires no effect. -/
theorem runTicks_plain (k : Nat) :
    ∀ (s : ConvState) (t : Int), s.timeRemaining = some t → (21 : Int) + k = t →
      runTicks k s = { s with timeRemaining := some 21 } := by
  induction k with
  | zero =>
    intro s t hrem ht
    have h21 : s.timeRemaining = some 21 := by
      rw [hrem]; congr 1; omega
    show s = { s with timeRemaining := some 21 }
    rw [← h21]
  | succ k ih =>
    intro s t hrem ht
    have hstep : timerTick s = { s with timeRemaining := some (t - 1) } := by
      refine timerTick_plain s t hrem (by omega) (by omega)
    show runTicks k (timerTick s) = { s with timeRemaining := some 21 }
    rw [hstep]
    exact ih _ (t - 1) rfl (by omega)

/-- Ticking down from a remaining time of k with 1 ≤ k ≤ 20 reaches
completion after exactly k ticks without ever firing the warning effect. -/
theorem runTicks_low (k : Nat) :
    ∀ (s : ConvState) (t : Int), s.timeRemaining = some t → t = (k : Int) →
      1 ≤ k → k ≤ 20 →
      (runTicks k s).timeRemaining = none ∧
      (runTicks k s).warningsFired = s.warningsFired ∧
      (runTicks k s).completionsFired = s.completionsFired + 1 := by
  induction k with
  | zero => intro s t _ _ h1 _; omega
  | succ k ih =>
    intro s t hrem ht h1 hle
    by_cases hk : k = 0
    · subst hk
      have hdone : timerTick s = startListening
          { s with timeRemaining := none,
                   completionsFired := s.completionsFired + 1 } :=
        timerTick_complete s t hrem (by omega) (by omega)
      show (runTicks 0 (timerTick s)).timeRemaining = none ∧
        (runTicks 0 (timerTick s)).warningsFired = s.warningsFired ∧
        (runTicks 0 (timerTick s)).completionsFired = s.completionsFired + 1
      simp only [runTicks, hdone]
      refine ⟨?_, ?_, ?_⟩
      · rw [startListening_timeRemaining]
      · rw [startListening_warningsFired]
      · rw [startListening_completionsFired]
    · have hstep : timerTick s = { s with timeRemaining := some (t - 1) } :=
        timerTick_plain s t hrem (by omega) (by omega)
      show (runTicks k (timerTick s)).timeRemaining = none ∧
        (runTicks k (timerTick s)).warningsFired = s.warningsFired ∧
        (runTicks k (timerTick s)).completionsFired = s.completionsFired + 1
      rw [hstep]
      exact ih _ (t - 1) rfl (by omega) (by omega) (by omega)

/-! Claim C5: the warning threshold. -/

/-- Parsed timer data carrying a warning threshold of 30 seconds. -/
def timer30 : TimerData :=
  { duration := 60, kind := "countdown", step := 3, warning_time := 30,
    parallel_tasks := none, step_statuses := none }

/-- The state right after the countdown of timer30 is started. -/
def warn30State : ConvState :=
  (processTimerHeader initState (TimerHeader.parsed timer30)).1

/-- C5, counterexample: for a countdown started from timer data whose
warning threshold is 30, no warning has fired by the tick at which the
remaining time reaches 30; the warning instead fires at remaining time 20,
because the tick callback hard-codes the value 20 and never consults the
parsed warning_time field. -/
theorem warning_ignores_threshold :
    timer30.warning_time = 30 ∧
    warn30State.timeRemaining = some 60 ∧
    (runTicks 30 warn30State).timeRemaining = some 30 ∧
    (runTicks 30 warn30State).warningsFired = 0 ∧
    (runTicks 40 warn30State).timeRemaining = some 20 ∧
    (runTicks 40 warn30State).warningsFired = 1 := by
  decide

/-- C5, amended: for every countdown with total duration strictly greater
than 20, the warning side effect fires exactly once, and it fires precisely
at the tick where the remaining time becomes 20 — the threshold is the
hard-coded constant 20, independent of the warning threshold carried by the
timer data. -/
theorem warning_fires_once_at_20 (s : ConvState) (total : Int)
    (hrem : s.timeRemaining = some total) (htot : 20 < total) :
    (runTicks (total.toNat - 21) s).warningsFired = s.warningsFired ∧
    (runTicks (total.toNat - 21) s).timeRemaining = some 21 ∧
    (runTicks (total.toNat - 20) s).warningsFired = s.warningsFired + 1 ∧
    (runTicks (total.toNat - 20) s).timeRemaining = some 20 ∧
    (runTicks total.toNat s).warningsFired = s.warningsFired + 1 ∧
    (runTicks total.toNat s).timeRemaining = none ∧
    (runTicks total.toNat s).completionsFired = s.completionsFired + 1 := by
  have hplain := runTicks_plain (total.toNat - 21) s total hrem (by omega)
  have hsucc : total.toNat - 20 = (total.toNat - 21) + 1 := by omega
  have hwarn : runTicks (total.toNat - 20) s
      = { s with timeRemaining := some 20,
                 warningsFired := s.warningsFired + 1 } := by
    rw [hsucc, runTicks_succ_comm, hplain, timerTick_at_21 _ rfl]
  have hsplit : total.toNat = (total.toNat - 20) + 20 := by omega
  have hfull : runTicks total.toNat s = runTicks 20 (runTicks (total.toNat - 20) s) := by
    conv_lhs => rw [hsplit]
    rw [runTicks_add]
  have hlow := runTicks_low 20 (runTicks (total.toNat - 20) s) 20
    (by rw [hwarn]) (by norm_num) (by omega) (by omega)
  refine ⟨?_, ?_, ?_, ?_, ?_, ?_, ?_⟩
  · rw [hplain]
  · rw [hplain]
  · rw [hwarn]
  · rw [hwarn]
  · rw [hfull, hlow.2.1, hwarn]
  · rw [hfull, hlow.1]
  · rw [hfull, hlow.2.2, hwarn]

/-- Witness for the amended C5 at total duration 25 from the mount state. -/
theorem warning_fires_once_at_20_witness :
    (runTicks ((25 : Int).toNat - 21) { initState with timeRemaining := some 25 }).warningsFired
      = ({ initState with timeRemaining := some 25 } : ConvState).warningsFired ∧
    (runTicks ((25 : Int).toNat - 21) { initState with timeRemaining := some 25 }).timeRemaining
      = some 21 ∧
    (runTicks ((25 : Int).toNat - 20) { initState with timeRemaining := some 25 }).warningsFired
      = ({ initState with timeRemaining := some 25 } : ConvState).warningsFired + 1 ∧
    (runTicks ((25 : Int).toNat - 20) { initState with timeRemaining := some 25 }).timeRemaining
      = some 20 ∧
    (runTicks (25 : Int).toNat { initState with timeRemaining := some 25 }).warningsFired
      = ({ initState with timeRemaining := some 25 } : ConvState).warningsFired + 1 ∧
    (runTicks (25 : Int).toNat { initState with timeRemaining := some 25 }).timeRemaining
      = none ∧
    (runTicks (25 : Int).toNat { initState with timeRemaining := some 25 }).completionsFired
      = ({ initState with timeRemaining := some 25 } : ConvState).completionsFired + 1 :=
  warning_fires_once_at_20 { initState with timeRemaining := some 25 } 25 rfl (by norm_num)

/-! Claim C6: natural timer completion. -/

/-- A tick of an idle timer is a no-op. -/
theorem timerTick_none (s : ConvState) (h : s.timeRemaining = none) :
    timerTick s = s := by
  simp only [timerTick, h]

/-- When the last message carries timer data with a parallel-task list, the
parallel-step effect resets the active set to the listed step numbers. -/
theorem updateParallelSteps_tasks (s : ConvState) (m : Message) (td : TimerData)
    (tasks : List ParallelTask) (hlast : s.messages.getLast? = some m)
    (htd : m.timer = some td) (htasks : td.parallel_tasks = some tasks) :
    updateParallelSteps s
      = { s with activeParallelSteps := tasks.map (fun t => t.step_number) } := by
  unfold updateParallelSteps
  simp only [hlast, htd, Option.some_bind, htasks]

/-- A cooking state one second before timer completion, whose last message
started the countdown and offered step 4 as a parallel task. -/
def parallelMsgState : ConvState :=
  { initState with
    currentState := ConvPhase.cooking
    timeRemaining := some 1
    activeParallelSteps := [4]
    messages :=
      [ { sender := Sender.assistant
          content := "Simmer for 10 minutes"
          state := some ConvPhase.cooking
          timer := some { duration := 600, kind := "countdown", step := 3,
                          warning_time := 20,
                          parallel_tasks := some
                            [ { step_number := 4, instruction := "Chop the parsley",
                                estimated_time := 60 } ],
                          step_statuses := none } } ] }

/-- C6, counterexample: when the countdown completes naturally while the
last message carries a parallel-task list, the active-parallel-step set does
not become empty — the effect re-reads the last message and resets the set
to its parallel-task step numbers. -/
theorem completion_does_not_clear_parallel_steps :
    (timerTickWithEffects parallelMsgState).timeRemaining = none ∧
    (timerTickWithEffects parallelMsgState).completionsFired = 1 ∧
    (timerTickWithEffects parallelMsgState).activeParallelSteps = [4] ∧
    (timerTickWithEffects parallelMsgState).activeParallelSteps ≠ [] := by
  decide

/-- C6, amended: when a running countdown reaches 0 naturally, the
completion side effect fires exactly once (the counter rises by one and a
further tick changes nothing), the timer transitions to idle, startListening
is invoked regardless of the current conversation state — but the
active-parallel-step set does not become empty: it is reset to the step
numbers of the parallel-task list of the last message whenever that list is
present. -/
theorem timer_completion_behavior (s : ConvState) (r : Int) (m : Message)
    (td : TimerData) (tasks : List ParallelTask)
    (hrem : s.timeRemaining = some r) (hr : r ≤ 1)
    (hlast : s.messages.getLast? = some m) (htd : m.timer = some td)
    (htasks : td.parallel_tasks = some tasks) :
    (timerTickWithEffects s).timeRemaining = none ∧
    (timerTickWithEffects s).completionsFired = s.completionsFired + 1 ∧
    (timerTickWithEffects s).warningsFired = s.warningsFired ∧
    (timerTickWithEffects s).startListeningCalls = s.startListeningCalls + 1 ∧
    (timerTickWithEffects s).activeParallelSteps
      = tasks.map (fun t => t.step_number) ∧
    timerTick (timerTickWithEffects s) = timerTickWithEffects s := by
  have hdone : timerTick s = startListening
      { s with timeRemaining := none,
               completionsFired := s.completionsFired + 1 } :=
    timerTick_complete s r hrem (by omega) (by omega)
  have hwe : timerTickWithEffects s =
      { startListening
          { s with timeRemaining := none,
                   completionsFired := s.completionsFired + 1 }
        with activeParallelSteps := tasks.map (fun t => t.step_number) } := by
    unfold timerTickWithEffects
    rw [hdone]
    exact updateParallelSteps_tasks _ m td tasks
      (by rw [startListening_messages]; exact hlast) htd htasks
  refine ⟨?_, ?_, ?_, ?_, ?_, ?_⟩
  · rw [hwe]; show (startListening _).timeRemaining = none
    rw [startListening_timeRemaining]
  · rw [hwe]; show (startListening _).completionsFired = s.completionsFired + 1
    rw [startListening_completionsFired]
  · rw [hwe]; show (startListening _).warningsFired = s.warningsFired
    rw [startListening_warningsFired]
  · rw [hwe]; show (startListening _).startListeningCalls = s.startListeningCalls + 1
    rw [startListening_calls]
  · rw [hwe]
  · refine timerTick_none _ ?_
    rw [hwe]; show (startListening _).timeRemaining = none
    rw [startListening_timeRemaining]

/-- Witness for the amended C6 at the concrete parallel-task state. -/
theorem timer_completion_behavior_witness :
    (timerTickWithEffects parallelMsgState).timeRemaining = none ∧
    (timerTickWithEffects parallelMsgState).completionsFired
      = parallelMsgState.completionsFired + 1 ∧
    (timerTickWithEffects parallelMsgState).warningsFired
      = parallelMsgState.warningsFired ∧
    (timerTickWithEffects parallelMsgState).startListeningCalls
      = parallelMsgState.startListeningCalls + 1 ∧
    (timerTickWithEffects parallelMsgState).activeParallelSteps
      = List.map (fun t => t.step_number)
          [ ({ step_number := 4, instruction := "Chop the parsley",
               estimated_time := 60 } : ParallelTask) ] ∧
    timerTick (timerTickWithEffects parallelMsgState)
      = timerTickWithEffects parallelMsgState :=
  timer_completion_behavior parallelMsgState 1 _ _ _ rfl (by norm_num) rfl rfl rfl

/-! Claim C7: capture restart at the end of playback. -/

/-- A cooking state in which audio is playing while a countdown of 600
seconds is running. -/
def playingDuringTimerState : ConvState :=
  { initState with currentState := ConvPhase.cooking, isPlaying := true,
                   timeRemaining := some 600 }

/-- C7, counterexample: playback ends while a countdown is running, yet
capture auto-starts anyway — the listener closes over the mount-render
timeRemaining (null), so the timer test written in the source never
suppresses the restart. -/
theorem audio_end_ignores_running_timer :
    playingDuringTimerState.timeRemaining = some 600 ∧
    (handleAudioEnd playingDuringTimerState).startListeningCalls
      = playingDuringTimerState.startListeningCalls + 1 ∧
    (handleAudioEnd playingDuringTimerState).isListening = true ∧
    (handleAudioEnd playingDuringTimerState).isPlaying = false := by
  decide

/-- C7, amended: on natural completion of audio playback the playing flag is
cleared, and startListening is invoked if and only if the conversation state
is not initial_summary. The running-timer condition of the original claim is
not part of the program behaviour: the ended listener reads the
timeRemaining binding captured at mount, which is always null, so capture
auto-starts from playback end even while a countdown runs. -/
theorem audio_end_capture_iff_state (s : ConvState) :
    (handleAudioEnd s).isPlaying = false ∧
    ((handleAudioEnd s).startListeningCalls = s.startListeningCalls + 1 ↔
      s.currentState ≠ ConvPhase.initial_summary) := by
  unfold handleAudioEnd
  split
  case isTrue hc =>
    refine ⟨?_, ?_, ?_⟩
    · rw [startListeningStale_isPlaying]
    · intro _; exact hc.1
    · intro _; rw [startListeningStale_calls]
  case isFalse hc =>
    refine ⟨rfl, ?_, ?_⟩
    · intro habs
      have : s.startListeningCalls = s.startListeningCalls + 1 := habs
      exact absurd this (by omega)
    · intro hstate
      exact absurd ⟨hstate, rfl⟩ hc

/-! Claim C8: the append-only message log. -/

theorem recognitionErrorHandler_messages (b : Bool) (s : ConvState) :
    (recognitionErrorHandler b s).messages = s.messages := by
  unfold recognitionErrorHandler
  split
  · rw [startListeningStale_messages]
  · rfl

theorem handleAudioEnd_messages (s : ConvState) :
    (handleAudioEnd s).messages = s.messages := by
  unfold handleAudioEnd
  split
  · rw [startListeningStale_messages]
  · rfl

theorem applyDeviceOp_messages (op : DeviceOp) (s : ConvState) :
    (applyDeviceOp op s).messages = s.messages := by
  cases op with
  | startL => exact startListening_messages s
  | stopL => exact stopListening_messages s
  | play => exact playAudioResponse_messages s
  | recogError b => exact recognitionErrorHandler_messages b s
  | recogEnd => rfl
  | audioEnd => exact handleAudioEnd_messages s

theorem processTimerHeader_messages (s : ConvState) (h : TimerHeader) :
    (processTimerHeader s h).1.messages = s.messages := by
  cases h with
  | absent => rfl
  | malformed => rfl
  | parsed d =>
    simp only [processTimerHeader]
    split <;> rfl

/-- The timer attached to the assistant message, as a function of the
header outcome alone. -/
def timerOf : TimerHeader → Option TimerData
  | TimerHeader.parsed d => some d
  | _ => none

theorem processTimerHeader_snd (s : ConvState) (h : TimerHeader) :
    (processTimerHeader s h).2 = timerOf h := by
  cases h with
  | absent => rfl
  | malformed => rfl
  | parsed d =>
    simp only [processTimerHeader, timerOf]
    split <;> rfl

/-- The messages appended by the response-processing suffix of a turn. -/
def assistantPart (r : CollabResponse) : List Message :=
  match r.responseText with
  | some txt => [{ sender := Sender.assistant, content := txt,
                   state := r.nextState, timer := timerOf r.timerHeader }]
  | none => []

theorem applyResponse_messages (s : ConvState) (r : CollabResponse) :
    (applyResponse s r).messages = s.messages ++ assistantPart r := by
  unfold applyResponse assistantPart
  rw [playAudioResponse_messages]
  rcases r with ⟨ns, rid, txt, th⟩
  cases ns <;> cases rid <;> cases txt <;>
    simp only [] <;>
    (try split) <;>
    simp [addMessage, processTimerHeader_messages, processTimerHeader_snd]

/-- C8: the message log is append-only. First, N calls to addMessage extend
the log by exactly those N messages in arrival order (so from an empty log
the length is exactly N); second, every operation of the component only ever
extends the log by a suffix — no operation edits, removes or reorders a
previously appended message. -/
theorem message_log_append_only :
    (∀ (s : ConvState) (ms : List Message),
        (ms.foldl addMessage s).messages = s.messages ++ ms) ∧
    (∀ ms : List Message,
        ((ms.foldl addMessage initState).messages).length = ms.length) ∧
    (∀ (op : SysOp) (s : ConvState),
        ∃ tail, (applySysOp op s).messages = s.messages ++ tail) := by
  have hfold : ∀ (ms : List Message) (s : ConvState),
      (ms.foldl addMessage s).messages = s.messages ++ ms := by
    intro ms
    induction ms with
    | nil => intro s; simp
    | cons m rest ih =>
      intro s
      show (rest.foldl addMessage (addMessage s m)).messages = s.messages ++ (m :: rest)
      rw [ih]
      simp [addMessage]
  refine ⟨fun s ms => hfold ms s, fun ms => by rw [hfold]; rfl, ?_⟩
  intro op s
  cases op with
  | device d => exact ⟨[], by simp [applySysOp, applyDeviceOp_messages]⟩
  | tick => exact ⟨[], by simp [applySysOp, timerTick_messages]⟩
  | tickWithEffects =>
    exact ⟨[], by
      simp [applySysOp, timerTickWithEffects, updateParallelSteps_messages,
        timerTick_messages]⟩
  | voiceStart t =>
    exact ⟨[userMessage t], by simp [applySysOp, handleVoiceInputStart, addMessage]⟩
  | voiceFail t =>
    exact ⟨[userMessage t], by
      simp [applySysOp, handleVoiceInputFail, handleVoiceInputStart, addMessage]⟩
  | voiceSuccess t r =>
    refine ⟨userMessage t :: assistantPart r, ?_⟩
    show (applyResponse _ r).messages = _
    rw [applyResponse_messages]
    simp [handleVoiceInputStart, addMessage]
  | textStart t =>
    simp only [applySysOp, handleTextSubmitStart]
    split
    · exact ⟨[], by simp⟩
    · exact ⟨[userMessage t], by simp [addMessage]⟩
  | parallelEffect => exact ⟨[], by simp [applySysOp, updateParallelSteps_messages]⟩
  | statusEffect => exact ⟨[], by simp [applySysOp, stepStatusesEffect_messages]⟩

/-! Claim C9: unparsable timer data. -/

/-- C9: when the timer-data field of a response is present but unparsable,
the assistant message is still appended with the response text, the appended
message carries no timer snapshot, the running timer is neither started nor
changed and no effect counter moves; the catch handler swallows the parse
error, so the turn completes normally (the transition is a total function
reaching the same playback step as a turn without the field). -/
theorem malformed_timer_data_drops_field (s : ConvState) (txt : String)
    (ns : Option ConvPhase) (rid : Option String) :
    (applyResponse s { nextState := ns, updatedRecipeId := rid,
                       responseText := some txt,
                       timerHeader := TimerHeader.malformed }).messages
      = s.messages ++ [{ sender := Sender.assistant, content := txt,
                         state := ns, timer := none }] ∧
    (applyResponse s { nextState := ns, updatedRecipeId := rid,
                       responseText := some txt,
                       timerHeader := TimerHeader.malformed }).timeRemaining
      = s.timeRemaining ∧
    (applyResponse s { nextState := ns, updatedRecipeId := rid,
                       responseText := some txt,
                       timerHeader := TimerHeader.malformed }).warningsFired
      = s.warningsFired ∧
    (applyResponse s { nextState := ns, updatedRecipeId := rid,
                       responseText := some txt,
                       timerHeader := TimerHeader.malformed }).completionsFired
      = s.completionsFired := by
  unfold applyResponse
  refine ⟨?_, ?_, ?_, ?_⟩ <;>
    (first
      | rw [playAudioResponse_messages]
      | rw [playAudioResponse_timeRemaining]
      | rw [playAudioResponse_warningsFired]
      | rw [playAudioResponse_completionsFired]) <;>
    cases ns <;> cases rid <;>
    simp only [processTimerHeader] <;>
    (try split) <;>
    simp [addMessage]

/-! Claim C10: the stop-signal encoding of parsed timer data. -/

/-- C10: for every successfully parsed timer-data object, a countdown is
started (the remaining time becomes the parsed duration) exactly when the
duration is strictly positive; a duration of 0 or less instead clears the
remaining time, which cancels any running countdown, and no completion or
warning effect fires — in particular a subsequent tick is a no-op. -/
theorem parsed_timer_start_iff_positive (s : ConvState) (td : TimerData) :
    ((processTimerHeader s (TimerHeader.parsed td)).1.timeRemaining
       = if 0 < td.duration then some td.duration else none) ∧
    (processTimerHeader s (TimerHeader.parsed td)).2 = some td ∧
    (processTimerHeader s (TimerHeader.parsed td)).1.completionsFired
      = s.completionsFired ∧
    (processTimerHeader s (TimerHeader.parsed td)).1.warningsFired
      = s.warningsFired ∧
    (td.duration ≤ 0 →
      timerTick (processTimerHeader s (TimerHeader.parsed td)).1
        = (processTimerHeader s (TimerHeader.parsed td)).1) := by
  by_cases h : 0 < td.duration
  · refine ⟨?_, ?_, ?_, ?_, ?_⟩ <;> simp only [processTimerHeader, if_pos h]
    exact fun hle => absurd h (by omega)
  · refine ⟨?_, ?_, ?_, ?_, ?_⟩ <;> simp only [processTimerHeader, if_neg h]
    exact fun _ => timerTick_none _ rfl

/-- A cooking state with a countdown running, about to receive a stop signal. -/
def runningTimerState : ConvState :=
  { initState with currentState := ConvPhase.cooking, timeRemaining := some 100 }

/-- Timer data encoding a stop signal: duration 0. -/
def stopTimerData : TimerData :=
  { duration := 0, kind := "stop", step := 5, warning_time := 20,
    parallel_tasks := none, step_statuses := none }

/-- Witness for C10 at a stop signal received while a countdown runs. -/
theorem parsed_timer_start_iff_positive_witness :
    ((processTimerHeader runningTimerState (TimerHeader.parsed stopTimerData)).1.timeRemaining
       = if 0 < stopTimerData.duration then some stopTimerData.duration else none) ∧
    (processTimerHeader runningTimerState (TimerHeader.parsed stopTimerData)).2
      = some stopTimerData ∧
    (processTimerHeader runningTimerState (TimerHeader.parsed stopTimerData)).1.completionsFired
      = runningTimerState.completionsFired ∧
    (processTimerHeader runningTimerState (TimerHeader.parsed stopTimerData)).1.warningsFired
      = runningTimerState.warningsFired ∧
    (stopTimerData.duration ≤ 0 →
      timerTick (processTimerHeader runningTimerState (TimerHeader.parsed stopTimerData)).1
        = (processTimerHeader runningTimerState (TimerHeader.parsed stopTimerData)).1) :=
  parsed_timer_start_iff_positive runningTimerState stopTimerData

end CookAway
